import Mathlib

/-!
# Verification of the Goon client-side state manager

Shallow embedding of the browser application's state management code:
`core.js` (AppState), `storage.js` (Storage.loadFromStorage / saveToStorage),
`timer.js` (Timer.startTimer / pauseTimer / resetTimer / startMetronome),
`stats.js` (Stats.finishContent), `settings.js` (Settings.saveSettings /
resetCredentials) and `ui.js` (UI.updateAutoCycleUI / updateTimerSettingsUI).

Modelling conventions:
* JS numbers that the code treats as integers are `Int`/`Nat`.  A call to
  `Math.random()` is modelled by an explicit rational `rn/rd` passed as two
  `Nat` parameters (theorems assume `0 < rd` and `rn < rd`, i.e. the value
  lies in `[0,1)`); `Math.floor (r * k)` is then exactly `(rn * k).fdiv rd`.
* JS strings are `String`; `parseInt(x) || d` is `parseIntD x d` (JS `parseInt`
  of an empty/non-numeric string is `NaN`, and both `NaN` and `0` are falsy).
* `localStorage` / `sessionStorage` are records of the keys this app uses; the
  `goonAppSettings` slot stores the parsed JSON payload (`StoredBlob.ok p`) or
  a malformed string (`StoredBlob.malformed`), modelling that
  `JSON.parse (JSON.stringify p) = p` for the values involved.
* JS objects with statically known fields are structures with `Option` fields
  for possibly-`undefined` members; the dynamically keyed
  `redditCredentials` object is an association list `JObj`.
* `setInterval` tasks are modelled by a ghost counter (`intervalTasks`: how
  many live tasks exist) together with the stored handle (`interval`: the
  handle field is non-null).  `clearInterval` on a valid handle kills exactly
  that task.  This makes "intervals never stack" a provable statement.
* DOM reads are parameters (element-existence booleans, form field contents);
  writes that only touch the DOM are dropped.
* The non-integer setting `metronomeVolume` (a JS float in `[0,1]`) is carried
  as a rational; no claim depends on float rounding.
-/

namespace Goon

/-- The `Math.floor (r * k)` where `r = rn / rd` is a `Math.random()` value.
`Int.fdiv` is floor division, so for `rd > 0` this is exactly
`⌊(rn / rd) * k⌋`. -/
def randFloorMul (rn rd : Nat) (k : Int) : Int :=
  ((rn : Int) * k).fdiv (rd : Int)

/-- JS truthiness of a nullable string (`null`/`undefined`/`''` are falsy). -/
def truthyStr : Option String → Bool
  | some s => s ≠ ""
  | none => false

/-- JS `a || b` for strings: `b` when `a` is empty. -/
def jsOrStr (a : String) (b : String) : String :=
  if a = "" then b else a

/-- Longest digit prefix of a character list. -/
def digitsPre : List Char → List Char
  | [] => []
  | c :: cs => if c.isDigit then c :: digitsPre cs else []

/-- Decimal value of a digit list. -/
def digitsVal (l : List Char) : Nat :=
  l.foldl (fun a c => a * 10 + (c.toNat - 48)) 0

/-- JS `parseInt` on the decimal strings this app stores (value of the
leading digit prefix; `none` models `NaN`). -/
def jsParseInt (s : String) : Option Nat :=
  match digitsPre s.data with
  | [] => none
  | ds => some (digitsVal ds)

/-- JS `parseInt(s) || d` (`NaN` and `0` are both falsy). -/
def parseIntD (s : String) (d : Nat) : Nat :=
  match jsParseInt s with
  | none => d
  | some 0 => d
  | some n => n

/-- JS `parseInt(x) || d` where `x` may be `undefined`. -/
def parseIntOptD (s : Option String) (d : Nat) : Nat :=
  match s with
  | none => d
  | some v => parseIntD v d

/-- JS `String.prototype.trim` (ASCII space/tab/newline, which covers the
inputs this app sees). -/
def jsTrim (s : String) : String :=
  let ws := fun c => c = ' ' ∨ c = '\t' ∨ c = '\n' ∨ c = '\r'
  ⟨((s.data.dropWhile ws).reverse.dropWhile ws).reverse⟩

/-- JS `parseFloat(q) || d` on an already-numeric value: `0` (and `NaN`,
not representable here) falls back to `d`. -/
def jsOrQ (a : ℚ) (b : ℚ) : ℚ :=
  if a = 0 then b else a

/-- A subreddit list entry `{name, enabled}`. -/
structure SubEntry where
  name : String
  enabled : Bool
deriving Repr, DecidableEq

/-- A dynamically keyed JS object holding string fields
(used for `redditCredentials`). -/
abbrev JObj := List (String × String)

/-- Field lookup on a `JObj` (JS property read; `none` = `undefined`). -/
def jget (o : JObj) (k : String) : Option String :=
  (o.find? (fun p => p.1 = k)).map (·.2)

/-! ## Data model (core.js `AppState`, storage payloads, browser storage) -/

/-- The `stats` sub-object of a persisted settings payload
(`{favoritesCompletedCount, punishmentsCompletedCount}`, both optional). -/
structure StatsPayload where
  favoritesCompletedCount : Option Nat
  punishmentsCompletedCount : Option Nat
deriving Repr, DecidableEq

/-- A parsed settings JSON payload (what `/load_settings` returns, what
`localStorage['goonAppSettings']` holds, and what `saveToStorage` builds).
Every field may be absent (`undefined`). -/
structure Payload where
  favorites : Option (List SubEntry) := none
  punishments : Option (List SubEntry) := none
  contentSource : Option String := none
  punishmentsEnabled : Option Bool := none
  autoCycleEnabled : Option Bool := none
  autoCycleInterval : Option Nat := none
  videoTimerSoftLimitEnabled : Option Bool := none
  theme : Option String := none
  timerMin : Option String := none
  timerMax : Option String := none
  metronomeSpeed : Option String := none
  soundEnabled : Option Bool := none
  metronomeSound : Option String := none
  metronomeVolume : Option ℚ := none
  enabledContentFolders : Option (List String) := none
  enabledPunishmentFolders : Option (List String) := none
  redditCredentials : Option JObj := none
  stats : Option StatsPayload := none
  favoritesCompletedCount : Option Nat := none
  punishmentsCompletedCount : Option Nat := none
deriving Repr, DecidableEq

/-- The payload with every field absent (JS `{}`). -/
def Payload.empty : Payload := {}

/-- Contents of the `goonAppSettings` localStorage slot: a JSON string that
parses to a payload, or a malformed string. -/
inductive StoredBlob where
  | ok (p : Payload)
  | malformed
deriving Repr, DecidableEq

/-- The `JSON.parse` of the `goonAppSettings` slot, with the parse error caught
(`none` = absent or malformed). -/
def parseStored : Option StoredBlob → Option Payload
  | some (StoredBlob.ok p) => some p
  | some StoredBlob.malformed => none
  | none => none

/-- The `AppState.settings` (core.js lines 895-914).  `contentSource`,
`autoCycleInterval`, `metronomeSpeed` and the flat credential fields are
absent until first written, hence `Option`. -/
structure Settings where
  contentSource : Option String := none
  punishmentsEnabled : Bool := true
  autoCycleEnabled : Bool := true
  autoCycleInterval : Option Nat := none
  videoTimerSoftLimitEnabled : Bool := true
  timerMin : String := "30"
  timerMax : String := "120"
  metronomeSpeed : Option String := none
  soundEnabled : Bool := true
  metronomeSound : String := "default"
  metronomeVolume : ℚ := 7/10
  theme : String := "light"
  enabledContentFolders : List String := []
  enabledPunishmentFolders : List String := []
  redditCredentials : JObj :=
    [("client_id", ""), ("client_secret", ""), ("user_agent", "Goon/1.0")]
  redditClientId : Option String := none
  redditClientSecret : Option String := none
  redditUserAgent : Option String := none
deriving Repr, DecidableEq

/-- The `AppState.timer` (core.js lines 844-851), with the ghost task counter. -/
structure TimerState where
  intervalTasks : Nat := 0
  interval : Bool := false
  seconds : Int := 0
  originalSeconds : Int := 0
  isPaused : Bool := false
  minTime : Nat := 30
  maxTime : Nat := 300
deriving Repr, DecidableEq

/-- The `AppState.metronome` (core.js lines 854-861), with the ghost task
counter; `audio` records whether `setupMetronomeAudio` has installed the
audio element reference. -/
structure MetronomeState where
  intervalTasks : Nat := 0
  interval : Bool := false
  speed : Int := 60
  audio : Bool := false
deriving Repr, DecidableEq

/-- The parts of `AppState.content` the verified operations touch. -/
structure ContentState where
  isPunishment : Bool := false
  redditWindowOpen : Bool := false
deriving Repr, DecidableEq

/-- The `AppState.folders` (core.js lines 881-886). -/
structure FolderState where
  content : List String := []
  punishment : List String := []
  enabledContentFolders : List String := []
  enabledPunishmentFolders : List String := []
deriving Repr, DecidableEq

/-- The `AppState.stats` (core.js lines 889-892). -/
structure StatsState where
  favoritesCompletedCount : Nat := 0
  punishmentsCompletedCount : Nat := 0
deriving Repr, DecidableEq

/-- The `AppState.subreddits` (core.js lines 875-878). -/
structure SubredditsState where
  favorites : List SubEntry := []
  punishments : List SubEntry := []
deriving Repr, DecidableEq

/-- The process-wide `AppState` object. -/
structure AppState where
  timer : TimerState := {}
  metronome : MetronomeState := {}
  content : ContentState := {}
  subreddits : SubredditsState := {}
  folders : FolderState := {}
  stats : StatsState := {}
  settings : Settings := {}
deriving Repr, DecidableEq

/-- The hardcoded initial `AppState` (core.js lines 842-915). -/
def initialAppState : AppState := {}

/-- The localStorage keys this app uses.  `soundEnabled` is stored as the
string rendering of a boolean (`localStorage.setItem` stringifies). -/
structure LocalStorage where
  goonAppSettings : Option StoredBlob := none
  soundEnabled : Option String := none
  contentSource : Option String := none
  theme : Option String := none
deriving Repr, DecidableEq

/-- The single sessionStorage key this app uses. -/
structure SessionStorage where
  contentSource : Option String := none
deriving Repr, DecidableEq

/-- The `localStorage.getItem('soundEnabled') !== 'false'` — the global
sound-enabled read used throughout timer.js and storage.js. -/
def soundOn (ls : LocalStorage) : Bool :=
  ls.soundEnabled ≠ some "false"

/-- The `localStorage.setItem` stringifies its value. -/
def boolStr (b : Bool) : String :=
  if b then "true" else "false"

/-! ## UI module (ui.js) — the two display refreshers that mutate state -/

/-- The `UI.updateAutoCycleUI` (ui.js lines 169-184).  Re-checks the
`enableAutoCycle` checkbox (DOM only) and, when that element exists,
auto-cycle is disabled and a countdown interval is live, clears it. -/
def updateAutoCycleUI (hasAutoCycleCheckbox : Bool) (st : AppState) : AppState :=
  { st with timer :=
      if hasAutoCycleCheckbox && !st.settings.autoCycleEnabled && st.timer.interval then
        { st.timer with
          intervalTasks := st.timer.intervalTasks - 1, interval := false }
      else st.timer }

/-- The `UI.updateTimerSettingsUI` (ui.js lines 189-268); its only `AppState`
effect is lines 259-263: refresh `timer.minTime` / `timer.maxTime` from the
settings strings. -/
def updateTimerSettingsUI (st : AppState) : AppState :=
  { st with timer := { st.timer with
      minTime := parseIntD st.settings.timerMin 30,
      maxTime := parseIntD st.settings.timerMax 120 } }

/-! ## Storage module (storage.js) -/

/-- JS `a || b || d` over two nullable strings and a literal default. -/
def jsOr2Opt (a b : Option String) (d : String) : String :=
  if truthyStr a then a.getD ""
  else if truthyStr b then b.getD "" else d

/-- Merge with a JS truthiness guard (`if (v) cur = v` for a string field). -/
def mergeTruthy (cur : String) (v : Option String) : String :=
  match v with
  | some t => if t = "" then cur else t
  | none => cur

/-- Merge with a JS truthiness guard into an optional string field. -/
def mergeTruthyOpt (cur : Option String) (v : Option String) : Option String :=
  match v with
  | some t => if t = "" then cur else some t
  | none => cur

/-- Merge with a JS truthiness guard for a numeric field (`0` is falsy). -/
def mergeTruthyNat (cur : Option Nat) (v : Option Nat) : Option Nat :=
  match v with
  | some n => if n = 0 then cur else some n
  | none => cur

/-- The per-field merge of a loaded payload into `AppState`
(storage.js lines 77-83 and 137-233).  Each guard is the source's:
`x && Array.isArray(x)` for arrays (arrays are always truthy),
`!== undefined` for scalars, plain truthiness for `theme` /
`autoCycleInterval`, object truthiness for `redditCredentials` and `stats`.
A present `soundEnabled` is also written back to localStorage (line 182). -/
def applyLoadedSettings (st : AppState) (ls : LocalStorage) (p : Payload) :
    AppState × LocalStorage :=
  ({ st with
      subreddits := {
        favorites := p.favorites.getD st.subreddits.favorites,
        punishments := p.punishments.getD st.subreddits.punishments },
      folders := { st.folders with
        enabledContentFolders :=
          p.enabledContentFolders.getD st.folders.enabledContentFolders,
        enabledPunishmentFolders :=
          p.enabledPunishmentFolders.getD st.folders.enabledPunishmentFolders },
      stats := {
        favoritesCompletedCount :=
          match p.stats with
          | some sp => sp.favoritesCompletedCount.getD st.stats.favoritesCompletedCount
          | none => p.favoritesCompletedCount.getD st.stats.favoritesCompletedCount,
        punishmentsCompletedCount :=
          match p.stats with
          | some sp => sp.punishmentsCompletedCount.getD st.stats.punishmentsCompletedCount
          | none => p.punishmentsCompletedCount.getD st.stats.punishmentsCompletedCount },
      settings := { st.settings with
        punishmentsEnabled := p.punishmentsEnabled.getD st.settings.punishmentsEnabled,
        autoCycleEnabled := p.autoCycleEnabled.getD st.settings.autoCycleEnabled,
        autoCycleInterval := mergeTruthyNat st.settings.autoCycleInterval p.autoCycleInterval,
        videoTimerSoftLimitEnabled :=
          p.videoTimerSoftLimitEnabled.getD st.settings.videoTimerSoftLimitEnabled,
        theme := mergeTruthy st.settings.theme p.theme,
        timerMin := p.timerMin.getD st.settings.timerMin,
        timerMax := p.timerMax.getD st.settings.timerMax,
        metronomeSpeed :=
          match p.metronomeSpeed with
          | some v => some v
          | none => st.settings.metronomeSpeed,
        soundEnabled := p.soundEnabled.getD st.settings.soundEnabled,
        metronomeSound := p.metronomeSound.getD st.settings.metronomeSound,
        metronomeVolume := p.metronomeVolume.getD st.settings.metronomeVolume,
        enabledContentFolders :=
          p.enabledContentFolders.getD st.settings.enabledContentFolders,
        enabledPunishmentFolders :=
          p.enabledPunishmentFolders.getD st.settings.enabledPunishmentFolders,
        redditCredentials := p.redditCredentials.getD st.settings.redditCredentials } },
   { ls with soundEnabled :=
       match p.soundEnabled with
       | some b => some (boolStr b)
       | none => ls.soundEnabled })

/-- The second, narrower per-field merge run by the outer catch of
`loadFromStorage` (storage.js lines 312-376).  Note the differences from
`applyLoadedSettings`: `contentSource` is assigned directly when truthy
(line 321), `videoTimerSoftLimitEnabled`, `metronomeSound`,
`metronomeVolume`, `stats` and `AppState.folders.*` are not touched. -/
def applyCatchSettings (st : AppState) (ls : LocalStorage) (p : Payload) :
    AppState × LocalStorage :=
  ({ st with
      subreddits := {
        favorites := p.favorites.getD st.subreddits.favorites,
        punishments := p.punishments.getD st.subreddits.punishments },
      settings := { st.settings with
        contentSource := mergeTruthyOpt st.settings.contentSource p.contentSource,
        punishmentsEnabled := p.punishmentsEnabled.getD st.settings.punishmentsEnabled,
        autoCycleEnabled := p.autoCycleEnabled.getD st.settings.autoCycleEnabled,
        autoCycleInterval := mergeTruthyNat st.settings.autoCycleInterval p.autoCycleInterval,
        theme := mergeTruthy st.settings.theme p.theme,
        timerMin := p.timerMin.getD st.settings.timerMin,
        timerMax := p.timerMax.getD st.settings.timerMax,
        metronomeSpeed :=
          match p.metronomeSpeed with
          | some v => some v
          | none => st.settings.metronomeSpeed,
        soundEnabled := p.soundEnabled.getD st.settings.soundEnabled,
        enabledContentFolders :=
          p.enabledContentFolders.getD st.settings.enabledContentFolders,
        enabledPunishmentFolders :=
          p.enabledPunishmentFolders.getD st.settings.enabledPunishmentFolders,
        redditCredentials := p.redditCredentials.getD st.settings.redditCredentials } },
   { ls with soundEnabled :=
       match p.soundEnabled with
       | some b => some (boolStr b)
       | none => ls.soundEnabled })

/-- The 4-tier content source resolution (storage.js lines 85-111):
a URL parameter valued `reddit`/`custom`/`mixed` wins, then a truthy
session-storage value, then a truthy loaded-settings value, then `reddit`. -/
def resolveContentSource (url sess setting : Option String) : String :=
  if truthyStr url &&
      (url.getD "" == "reddit" || url.getD "" == "custom" || url.getD "" == "mixed") then
    url.getD ""
  else if truthyStr sess then sess.getD ""
  else if truthyStr setting then setting.getD ""
  else "reddit"

/-- The settings object `Storage.saveToStorage` builds (storage.js lines
409-439).  `enabledContentFolders` is
`AppState.folders.enabledContentFolders || AppState.settings.… || []`, and
the first operand is always an array (arrays are truthy in JS), so it is the
folders value; likewise for punishment folders. -/
def buildSaveBlob (st : AppState) (ls : LocalStorage) (ss : SessionStorage) : Payload :=
  { favorites := some st.subreddits.favorites,
    punishments := some st.subreddits.punishments,
    contentSource := some (jsOr2Opt st.settings.contentSource ss.contentSource "reddit"),
    punishmentsEnabled := some st.settings.punishmentsEnabled,
    autoCycleEnabled := some st.settings.autoCycleEnabled,
    autoCycleInterval := st.settings.autoCycleInterval,
    videoTimerSoftLimitEnabled := some st.settings.videoTimerSoftLimitEnabled,
    theme := some st.settings.theme,
    redditCredentials := some st.settings.redditCredentials,
    timerMin := some (jsOrStr st.settings.timerMin "30"),
    timerMax := some (jsOrStr st.settings.timerMax "120"),
    soundEnabled := some (soundOn ls),
    metronomeSound := some (jsOrStr st.settings.metronomeSound "default"),
    metronomeVolume := some (jsOrQ st.settings.metronomeVolume (7/10)),
    stats := some {
      favoritesCompletedCount := some st.stats.favoritesCompletedCount,
      punishmentsCompletedCount := some st.stats.punishmentsCompletedCount },
    enabledContentFolders := some st.folders.enabledContentFolders,
    enabledPunishmentFolders := some st.folders.enabledPunishmentFolders }

/-- The `Storage.saveToStorage` (storage.js lines 401-492).  Builds the settings
blob, refreshes `AppState.settings.enabled*Folders` from it (lines 442-443),
always writes the blob to `localStorage['goonAppSettings']` (line 447), then
attempts the remote POST; a remote failure (`remoteOk = false`: network
error, non-2xx, or an `error` field) is caught and only logged (lines
474-477), so the function still returns `true`. -/
def saveToStorage (st : AppState) (ls : LocalStorage) (ss : SessionStorage)
    (remoteOk : Bool) : AppState × LocalStorage × Bool :=
  let settings := buildSaveBlob st ls ss
  let st1 := { st with settings := { st.settings with
      enabledContentFolders := st.folders.enabledContentFolders,
      enabledPunishmentFolders := st.folders.enabledPunishmentFolders } }
  let ls1 := { ls with goonAppSettings := some (StoredBlob.ok settings) }
  (st1, ls1, true)

/-- What `loadFromStorage` actually returns. -/
inductive LoadResult where
  | fallbackData (p : Payload)
  | nullResult
deriving Repr, DecidableEq

/-- The `Storage.loadFromStorage` (storage.js lines 16-395).
`remoteLoad = some p` models a 2xx response without `error` field whose
settings (`data.settings || data`) are `p`; `none` models any remote failure.
The pipeline: parse the localStorage fallback (lines 24-36); remote fetch,
writing a successful payload back to localStorage (lines 40-74); 4-tier
content source resolution and write-back to AppState, sessionStorage,
localStorage and — only when no URL parameter was present — the URL
(lines 85-135); per-field merge (lines 77-83, 137-233); UI refresh, of which
`updateAutoCycleUI` and `updateTimerSettingsUI` mutate timer state (lines
236-251).  Then line 298 evaluates `return data || {}` — but `data` is
block-scoped to the inner `try` (line 48), so this read throws a
`ReferenceError` on every call; the outer catch (lines 299-394) re-reads
localStorage and, when it parses, runs the second merge and returns
`{settings: parsed}`, otherwise notifies and returns `null`. -/
def loadFromStorage (st0 : AppState) (ls0 : LocalStorage) (ss0 : SessionStorage)
    (url0 : Option String) (remoteLoad : Option Payload)
    (hasAutoCycleCheckbox : Bool) :
    AppState × LocalStorage × SessionStorage × Option String × LoadResult :=
  let parsedLocalSettings := parseStored ls0.goonAppSettings
  let settings :=
    match remoteLoad with
    | some p => p
    | none => parsedLocalSettings.getD Payload.empty
  let ls1 :=
    match remoteLoad with
    | some p => { ls0 with goonAppSettings := some (StoredBlob.ok p) }
    | none => ls0
  let finalContentSource :=
    resolveContentSource url0 ss0.contentSource settings.contentSource
  let st1 := { st0 with settings :=
    { st0.settings with contentSource := some finalContentSource } }
  let ss1 : SessionStorage := { contentSource := some finalContentSource }
  let ls2 := { ls1 with contentSource := some finalContentSource }
  let url1 := if truthyStr url0 then url0 else some finalContentSource
  let merged := applyLoadedSettings st1 ls2 settings
  let st3 := updateTimerSettingsUI (updateAutoCycleUI hasAutoCycleCheckbox merged.1)
  match parseStored merged.2.goonAppSettings with
  | some q =>
      let caught := applyCatchSettings st3 merged.2 q
      (caught.1, caught.2, ss1, url1, LoadResult.fallbackData q)
  | none =>
      (st3, merged.2, ss1, url1, LoadResult.nullResult)

/-! ## Timer module (timer.js) -/

/-- Kill the task referenced by a live stored interval handle
(`clearInterval(h); h = null`). -/
def clearTimerTask (t : TimerState) : TimerState :=
  { t with intervalTasks := t.intervalTasks - 1, interval := false }

/-- Kill the task referenced by a live stored metronome handle. -/
def clearMetronomeTask (m : MetronomeState) : MetronomeState :=
  { m with intervalTasks := m.intervalTasks - 1, interval := false }

/-- The random metronome speed (timer.js line 229):
`Math.floor(Math.random() * 80) + 40`, for `Math.random() = rn / rd`. -/
def randomMetronomeSpeed (rn rd : Nat) : Int :=
  randFloorMul rn rd 80 + 40

/-- The `Timer.startMetronome` (timer.js lines 224-297).  An absent, `NaN` or
non-positive `speed` is replaced by the random pick; the speed is stored;
any existing metronome interval is cleared; if the metronome dot element is
missing the function returns early (after the clear); otherwise the audio is
set up and a new tick interval installed. -/
def startMetronomeM (speed : Option Int) (rn rd : Nat) (hasMetronomeDot : Bool)
    (m : MetronomeState) : MetronomeState :=
  let sp : Int :=
    match speed with
    | some v => if v ≤ 0 then randomMetronomeSpeed rn rd else v
    | none => randomMetronomeSpeed rn rd
  let m0 := { m with speed := sp }
  let m1 := if m0.interval then clearMetronomeTask m0 else m0
  if hasMetronomeDot then
    { m1 with
      audio := true,
      intervalTasks := m1.intervalTasks + 1,
      interval := true }
  else m1

/-- The `Timer.startMetronome` as a whole-state operation: by inspection of the
source it reads and writes only `AppState.metronome` (plus DOM and
localStorage reads inside the tick callback). -/
def startMetronome (speed : Option Int) (rn rd : Nat) (hasMetronomeDot : Bool)
    (st : AppState) : AppState :=
  { st with metronome := startMetronomeM speed rn rd hasMetronomeDot st.metronome }

/-- The random timer duration (timer.js line 30):
`Math.floor(Math.random() * (maxTime - minTime + 1)) + minTime`. -/
def randomTimerSeconds (rn rd : Nat) (minTime maxTime : Nat) : Int :=
  randFloorMul rn rd ((maxTime : Int) - (minTime : Int) + 1) + (minTime : Int)

/-- The metronome speed derived from the starting timer duration
(timer.js lines 93-100), using `AppState.timer.minTime/maxTime`.
When `maxTime = minTime` the JS division yields `NaN`/`±Infinity`; the
resulting speed is then not a positive finite number in the cases the app
reaches, which `startMetronome` treats as invalid — modelled as `none`. -/
def derivedMetronomeSpeed (minTime maxTime : Nat) (seconds : Int) : Option Int :=
  if maxTime = minTime then none
  else
    let normalizedNum : Int := (maxTime : Int) - seconds
    some (40 + (normalizedNum * 80).fdiv ((maxTime : Int) - (minTime : Int)))

/-- The `Timer.startTimer` (timer.js lines 16-105).  Clears any existing
countdown interval (lines 17-21); replaces an absent/`NaN`/non-positive
`seconds` argument with a random duration in the configured range (lines
24-32); resets the countdown fields (lines 35-37); installs the countdown
interval (line 49); and, when sound is enabled, starts the metronome at the
duration-derived speed (lines 90-104). -/
def startTimer (seconds : Option Int) (rn rd mrn mrd : Nat)
    (hasMetronomeDot : Bool) (st : AppState) (ls : LocalStorage) : AppState :=
  let t0 := if st.timer.interval then clearTimerTask st.timer else st.timer
  let minTime := parseIntD st.settings.timerMin 30
  let maxTime := parseIntD st.settings.timerMax 120
  let s : Int :=
    match seconds with
    | some v => if v ≤ 0 then randomTimerSeconds rn rd minTime maxTime else v
    | none => randomTimerSeconds rn rd minTime maxTime
  let st1 := { st with timer :=
    { t0 with
      seconds := s,
      originalSeconds := s,
      isPaused := false,
      intervalTasks := t0.intervalTasks + 1,
      interval := true } }
  if soundOn ls then
    startMetronome (derivedMetronomeSpeed st1.timer.minTime st1.timer.maxTime s)
      mrn mrd hasMetronomeDot st1
  else st1

/-- Observable effects of one countdown interval tick. -/
structure TickResult where
  state : AppState
  startBrowsingTriggered : Bool
  completionSoundPlayed : Bool
deriving Repr, DecidableEq

/-- One firing of the countdown interval callback (timer.js lines 49-87).
While paused it does nothing; otherwise it decrements, and on reaching a
value `≤ 0` it clears the interval, plays the completion sound when sound is
enabled, force-closes a tracked open content window, and calls
`GoonApp.Content.startBrowsing()` — unconditionally, with no check of
`AppState.settings.autoCycleEnabled`. -/
def timerTick (st : AppState) (ls : LocalStorage) : TickResult :=
  if st.timer.isPaused then ⟨st, false, false⟩
  else
    let s := st.timer.seconds - 1
    if s ≤ 0 then
      let t1 := clearTimerTask { st.timer with seconds := s }
      let c1 :=
        if st.content.redditWindowOpen then
          { st.content with redditWindowOpen := false }
        else st.content
      ⟨{ st with timer := t1, content := c1 }, true, soundOn ls⟩
    else
      ⟨{ st with timer := { st.timer with seconds := s } }, false, false⟩

/-- The `Timer.pauseTimer` (timer.js lines 110-153): a single toggle.  On
resume, when the stored metronome speed is truthy and no metronome interval
is live, the metronome is restarted at that speed. -/
def pauseTimer (mrn mrd : Nat) (hasMetronomeDot : Bool) (st : AppState) : AppState :=
  let st1 := { st with timer := { st.timer with isPaused := !st.timer.isPaused } }
  if st1.timer.isPaused then st1
  else if st1.metronome.speed ≠ 0 && !st1.metronome.interval then
    startMetronome (some st1.metronome.speed) mrn mrd hasMetronomeDot st1
  else st1

/-- The `Timer.resetTimer` (timer.js lines 159-200).  Clears the active task;
picks a fresh random duration when asked to (or when no original duration is
recorded), else reuses the original; resets the fields; restarts via
`startTimer`. -/
def resetTimer (useNewTime : Bool) (rn rd srn srd mrn mrd : Nat)
    (hasMetronomeDot : Bool) (st : AppState) (ls : LocalStorage) : AppState :=
  let st0 := if st.timer.interval then { st with timer := clearTimerTask st.timer } else st
  let minTime := parseIntD st0.settings.timerMin 30
  let maxTime := parseIntD st0.settings.timerMax 120
  let newSeconds : Int :=
    if useNewTime || st0.timer.originalSeconds ≤ 0 then
      randomTimerSeconds rn rd minTime maxTime
    else st0.timer.originalSeconds
  let st1 := { st0 with timer := { st0.timer with
      seconds := newSeconds, originalSeconds := newSeconds, isPaused := false } }
  startTimer (some newSeconds) srn srd mrn mrd hasMetronomeDot st1 ls

/-! ## Stats module (stats.js) -/

/-- The `Stats.finishContent` (stats.js lines 15-34): toggle the timer pause
state via `pauseTimer`, increment the punishments counter when the current
content is a punishment and the favorites counter otherwise, then persist
via `saveToStorage`. -/
def finishContent (mrn mrd : Nat) (hasMetronomeDot : Bool) (st : AppState)
    (ls : LocalStorage) (ss : SessionStorage) (remoteOk : Bool) :
    AppState × LocalStorage :=
  let st1 := pauseTimer mrn mrd hasMetronomeDot st
  let st2 :=
    if st1.content.isPunishment then
      { st1 with stats := { st1.stats with
          punishmentsCompletedCount := st1.stats.punishmentsCompletedCount + 1 } }
    else
      { st1 with stats := { st1.stats with
          favoritesCompletedCount := st1.stats.favoritesCompletedCount + 1 } }
  let saved := saveToStorage st2 ls ss remoteOk
  (saved.1, saved.2.1)

/-! ## Settings module (settings.js) -/

/-- The settings-modal form as `saveSettings` reads it.  For each input,
`none` models a missing DOM element (the code guards every read with an
existence check); checkbox/radio reads bundle existence and `checked`. -/
structure SettingsForm where
  sourceRedditChecked : Bool := false
  sourceCustomChecked : Bool := false
  sourceMixedChecked : Bool := false
  enablePunishments : Option Bool := none
  enableAutoCycle : Option Bool := none
  enableVideoTimerSoftLimit : Option Bool := none
  timerMin : Option String := none
  timerMax : Option String := none
  metronomeSound : Option String := none
  metronomeVolume : Option ℚ := none
  themeLightChecked : Bool := false
  themeDarkChecked : Bool := false
  credentialInputs : Option (String × String × String) := none
deriving Repr, DecidableEq

/-- The `Settings.saveSettings` (settings.js lines 15-197).  Reads the modal
form into `AppState.settings` (content source radios with `reddit` fallback;
session-storage backup of the content source; punishments / auto-cycle /
video-soft-limit checkboxes, clearing a live countdown when auto-cycle is
turned off; timer min/max strings plus the derived
`autoCycleInterval = ⌊(min+max)/2⌋`; metronome sound/volume; the
sound-enabled flag re-read from localStorage; theme radios; credentials
written in both the nested and the flat shape, lines 127-151); persists via
`saveToStorage`; refreshes UI (which can clear the countdown again via
`updateAutoCycleUI` and refreshes `timer.minTime/maxTime`); stores the theme
in localStorage; and refreshes `timer` bounds and `metronome.speed`
(lines 171-181). -/
def saveSettings (f : SettingsForm) (st : AppState) (ls : LocalStorage)
    (ss : SessionStorage) (remoteOk : Bool) :
    AppState × LocalStorage × SessionStorage :=
  let contentSource :=
    if f.sourceRedditChecked then "reddit"
    else if f.sourceCustomChecked then "custom"
    else if f.sourceMixedChecked then "mixed"
    else "reddit"
  let ss1 : SessionStorage := { contentSource := some contentSource }
  let timer1 :=
    match f.enableAutoCycle with
    | some checked =>
        if !checked && st.timer.interval then clearTimerTask st.timer else st.timer
    | none => st.timer
  let s1 := { st.settings with
    contentSource := some contentSource,
    punishmentsEnabled := f.enablePunishments.getD st.settings.punishmentsEnabled,
    autoCycleEnabled := f.enableAutoCycle.getD st.settings.autoCycleEnabled,
    videoTimerSoftLimitEnabled :=
      f.enableVideoTimerSoftLimit.getD st.settings.videoTimerSoftLimitEnabled,
    timerMin := f.timerMin.getD st.settings.timerMin,
    timerMax := f.timerMax.getD st.settings.timerMax,
    autoCycleInterval :=
      match f.timerMin, f.timerMax with
      | some mn, some mx => some ((parseIntD mn 30 + parseIntD mx 120) / 2)
      | _, _ => st.settings.autoCycleInterval,
    metronomeSound :=
      match f.metronomeSound with
      | some v => jsOrStr v "default"
      | none => st.settings.metronomeSound,
    metronomeVolume :=
      match f.metronomeVolume with
      | some v => jsOrQ v (7/10)
      | none => st.settings.metronomeVolume,
    soundEnabled := soundOn ls,
    theme :=
      if f.themeLightChecked then "light"
      else if f.themeDarkChecked then "dark"
      else st.settings.theme }
  let s2 :=
    match f.credentialInputs with
    | some (cid0, csec0, ua0) =>
        let clientId := jsTrim cid0
        let clientSecret := jsTrim csec0
        let userAgent := jsOrStr (jsTrim ua0) "Goon/1.0"
        { s1 with
          redditCredentials :=
            [("client_id", clientId), ("client_secret", clientSecret),
             ("user_agent", userAgent)],
          redditClientId := some clientId,
          redditClientSecret := some clientSecret,
          redditUserAgent := some userAgent }
    | none => s1
  let stA := { st with settings := s2, timer := timer1 }
  let saved := saveToStorage stA ls ss1 remoteOk
  let stB := updateTimerSettingsUI
    (updateAutoCycleUI f.enableAutoCycle.isSome saved.1)
  let ls2 := { saved.2.1 with theme := some (jsOrStr stB.settings.theme "light") }
  let stC := { stB with
    timer := { stB.timer with
      minTime := parseIntD stB.settings.timerMin 30,
      maxTime := parseIntD stB.settings.timerMax 120 },
    metronome := { stB.metronome with
      speed := (parseIntOptD stB.settings.metronomeSpeed 60 : Int) } }
  (stC, ls2, ss1)

/-- The `Settings.resetCredentials` (settings.js lines 547-573).  After the
confirmation dialog, replaces the nested `redditCredentials` object with
`{clientId:'', clientSecret:'', username:'', password:''}` — note the key
names, which are not the `client_id`/`client_secret`/`user_agent` keys every
other reader uses — clears four input fields that do not exist in the page
(DOM no-ops), and persists.  The flat `redditClientId` /
`redditClientSecret` / `redditUserAgent` fields are not touched. -/
def resetCredentials (confirmed : Bool) (st : AppState) (ls : LocalStorage)
    (ss : SessionStorage) (remoteOk : Bool) : AppState × LocalStorage :=
  if confirmed then
    let st1 := { st with settings := { st.settings with
      redditCredentials :=
        [("clientId", ""), ("clientSecret", ""),
         ("username", ""), ("password", "")] } }
    let saved := saveToStorage st1 ls ss remoteOk
    (saved.1, saved.2.1)
  else (st, ls)

/-! ## Task-accounting invariant -/

/-- The live-interval accounting invariant: the ghost task counters agree
with the stored handles, so there is at most one live countdown task and at
most one live metronome task. -/
def TaskInv (st : AppState) : Prop :=
  st.timer.intervalTasks = (if st.timer.interval then 1 else 0) ∧
  st.metronome.intervalTasks = (if st.metronome.interval then 1 else 0)

instance (st : AppState) : Decidable (TaskInv st) := by
  unfold TaskInv; infer_instance

end Goon

namespace Goon

/-! ## Helper lemmas -/

/-- The `Math.floor` of a random value times a natural constant, in `Nat`. -/
theorem randFloorMul_eq_natDiv (rn rd k : Nat) :
    randFloorMul rn rd (k : Int) = ((rn * k / rd : Nat) : Int) := by
  unfold randFloorMul
  have h : ((rn : Int) * (k : Int)) = ((rn * k : Nat) : Int) := by push_cast; ring
  rw [h, ← Int.ofNat_fdiv]

/-- A truthiness merge of a value into itself is the identity. -/
theorem mergeTruthy_self (c : String) : mergeTruthy c (some c) = c := by
  simp only [mergeTruthy]
  split <;> rfl

/-! ## Claim theorems -/

/-- C1: every call to `Storage.saveToStorage` writes the full settings blob
to the `goonAppSettings` localStorage key, and the outcome of the remote
write (`remoteOk`, covering network errors, non-2xx responses and JSON
`error` fields) neither undoes nor alters the local write — the entire
result of the call is independent of the remote outcome, the local cache
afterwards holds exactly the just-built settings object, and the call
returns `true`. -/
theorem saveToStorage_localStorage_first_and_unaffected_by_remote
    (st : AppState) (ls : LocalStorage) (ss : SessionStorage) (remoteOk : Bool) :
    (saveToStorage st ls ss remoteOk).2.1.goonAppSettings
        = some (StoredBlob.ok (buildSaveBlob st ls ss)) ∧
    saveToStorage st ls ss remoteOk = saveToStorage st ls ss false ∧
    (saveToStorage st ls ss remoteOk).2.2 = true :=
  ⟨rfl, rfl, rfl⟩

/-- C3 (code bug): with URL parameter `contentSource=custom`, session cache
`reddit` and cached settings `mixed` (remote failing), the 4-tier
resolution does compute `custom` and writes it to sessionStorage,
localStorage and the URL — but the function then evaluates
`return data || {}` (storage.js line 298) where `data` is block-scoped to
the inner `try`, throws a `ReferenceError`, and the outer catch re-merges
the cached settings, overwriting `AppState.settings.contentSource` with
`mixed`.  The claim's "the resolved value is written back into AppState"
does not survive to the end of the load. -/
theorem load_clobbers_resolved_contentSource :
    (loadFromStorage initialAppState
        { goonAppSettings := some (StoredBlob.ok { contentSource := some "mixed" }) }
        { contentSource := some "reddit" } (some "custom") none false).1.settings.contentSource
      = some "mixed" ∧
    (loadFromStorage initialAppState
        { goonAppSettings := some (StoredBlob.ok { contentSource := some "mixed" }) }
        { contentSource := some "reddit" } (some "custom") none false).2.2.1.contentSource
      = some "custom" ∧
    (loadFromStorage initialAppState
        { goonAppSettings := some (StoredBlob.ok { contentSource := some "mixed" }) }
        { contentSource := some "reddit" } (some "custom") none false).2.1.contentSource
      = some "custom" ∧
    (loadFromStorage initialAppState
        { goonAppSettings := some (StoredBlob.ok { contentSource := some "mixed" }) }
        { contentSource := some "reddit" } (some "custom") none false).2.2.2.1
      = some "custom" ∧
    resolveContentSource (some "custom") (some "reddit") (some "mixed") = "custom" := by
  refine ⟨?_, ?_, ?_, ?_, ?_⟩ <;> decide

/-- C7 (code bug): `saveSettings` writes the Reddit credentials in both the
flat and the nested shape, but a subsequent `resetCredentials` replaces only
the nested object — with key names (`clientId`, …) that no other reader
uses — and leaves the flat fields untouched, so the two storage shapes end
up disagreeing: the flat `redditClientId` still holds the old id while the
nested object no longer has a `client_id` at all. -/
theorem resetCredentials_desyncs_credential_shapes :
    (let afterSave := saveSettings { credentialInputs := some ("abc", "sec", "ua") }
        initialAppState {} {} false
     let afterReset := resetCredentials true afterSave.1 afterSave.2.1 {} false
     afterReset.1.settings.redditClientId = some "abc" ∧
     jget afterReset.1.settings.redditCredentials "client_id" = none ∧
     afterReset.1.settings.redditClientId
       ≠ jget afterReset.1.settings.redditCredentials "client_id" ∧
     afterSave.1.settings.redditClientId
       = jget afterSave.1.settings.redditCredentials "client_id") := by
  refine ⟨?_, ?_, ?_, ?_⟩ <;> decide

/-- C9 (code bug): when `startMetronome` has to pick a random speed it
computes `Math.floor(Math.random() * 80) + 40`, whose value for any
`Math.random()` result `rn/rd ∈ [0,1)` lies in `[40, 119]` — contrary to
the claim (and the code's own comment) that the range is `[40, 120]`; in
particular `120` is never chosen. -/
theorem randomMetronomeSpeed_in_40_119 (rn rd : Nat)
    (h1 : 0 < rd) (h2 : rn < rd) :
    40 ≤ randomMetronomeSpeed rn rd ∧ randomMetronomeSpeed rn rd ≤ 119 ∧
    randomMetronomeSpeed rn rd ≠ 120 := by
  have e : randomMetronomeSpeed rn rd = ((rn * 80 / rd : Nat) : Int) + 40 := by
    unfold randomMetronomeSpeed
    rw [show (80 : Int) = ((80 : Nat) : Int) from rfl, randFloorMul_eq_natDiv]
  have hlt : rn * 80 / rd < 80 := by
    rw [Nat.div_lt_iff_lt_mul h1]
    calc rn * 80 < rd * 80 := Nat.mul_lt_mul_of_lt_of_le h2 (Nat.le_refl 80) (by decide)
      _ = 80 * rd := Nat.mul_comm rd 80
  rw [e]
  revert hlt
  generalize (rn * 80 / rd) = q
  intro hlt
  omega

/-- C9 witness: at `Math.random() = 99/100` the chosen speed is 119. -/
theorem randomMetronomeSpeed_in_40_119_witness :
    0 < 100 ∧ 99 < 100 ∧
    (40 ≤ randomMetronomeSpeed 99 100 ∧ randomMetronomeSpeed 99 100 ≤ 119 ∧
     randomMetronomeSpeed 99 100 ≠ 120) :=
  ⟨by decide, by decide, randomMetronomeSpeed_in_40_119 99 100 (by decide) (by decide)⟩

/-- C10: when the auto-cycle checkbox element exists and
`settings.autoCycleEnabled` is false, `UI.updateAutoCycleUI` leaves no
countdown task: the stored interval handle is null afterwards, and under the
task-accounting invariant no countdown task survives — a display-refresh
function that cancels a live countdown as a side effect. -/
theorem updateAutoCycleUI_cancels_countdown_when_disabled
    (st : AppState) (h : st.settings.autoCycleEnabled = false) :
    (updateAutoCycleUI true st).timer.interval = false ∧
    (TaskInv st → (updateAutoCycleUI true st).timer.intervalTasks = 0) := by
  unfold TaskInv
  rcases hI : st.timer.interval with _ | _ <;>
    simp [updateAutoCycleUI, clearTimerTask, h, hI] <;> omega

/-- C10 witness: a concrete state with a live countdown and auto-cycle off. -/
theorem updateAutoCycleUI_cancels_countdown_when_disabled_witness :
    (let st : AppState := { initialAppState with
        settings := { initialAppState.settings with autoCycleEnabled := false },
        timer := { initialAppState.timer with interval := true, intervalTasks := 1 } }
     st.settings.autoCycleEnabled = false ∧
     ((updateAutoCycleUI true st).timer.interval = false ∧
      (TaskInv st → (updateAutoCycleUI true st).timer.intervalTasks = 0))) :=
  ⟨rfl, updateAutoCycleUI_cancels_countdown_when_disabled _ rfl⟩

/-- C4 (counterexample): a live countdown reaching zero in a state where
auto-cycle is disabled still triggers `Content.startBrowsing()` — the tick
callback (timer.js lines 49-87) never consults
`AppState.settings.autoCycleEnabled`, so "reaching zero does not start a new
content cycle when auto-cycle is disabled" is false. -/
theorem timerTick_triggers_browsing_despite_autocycle_off :
    (let st : AppState := { initialAppState with
        settings := { initialAppState.settings with autoCycleEnabled := false },
        timer := { initialAppState.timer with
                   interval := true, intervalTasks := 1, seconds := 1 } }
     st.settings.autoCycleEnabled = false ∧
     (timerTick st {}).startBrowsingTriggered = true) := by
  exact ⟨rfl, by decide⟩

/-- C4 (amended): whenever the countdown reaches zero (a tick fires on an
unpaused timer with one second or less remaining), the countdown task is
cancelled and a new `ContentPipeline` cycle (`startBrowsing`) is triggered
unconditionally, whatever the auto-cycle setting; auto-cycle merely governs
whether other code paths let a countdown stay alive. -/
theorem timerTick_expiry_cancels_and_triggers (st : AppState) (ls : LocalStorage)
    (h1 : st.timer.isPaused = false) (h2 : st.timer.seconds ≤ 1) :
    (timerTick st ls).startBrowsingTriggered = true ∧
    (timerTick st ls).state.timer.interval = false ∧
    (TaskInv st → (timerTick st ls).state.timer.intervalTasks = 0) := by
  unfold TaskInv timerTick clearTimerTask
  rcases hI : st.timer.interval with _ | _ <;>
    simp [h1, hI, show st.timer.seconds - 1 ≤ 0 by omega] <;> omega

/-- C4 witness: a concrete unpaused timer at one remaining second. -/
theorem timerTick_expiry_cancels_and_triggers_witness :
    (let st : AppState := { initialAppState with
        timer := { initialAppState.timer with
                   interval := true, intervalTasks := 1, seconds := 1 } }
     st.timer.isPaused = false ∧ st.timer.seconds ≤ 1 ∧
     ((timerTick st {}).startBrowsingTriggered = true ∧
      (timerTick st {}).state.timer.interval = false ∧
      (TaskInv st → (timerTick st {}).state.timer.intervalTasks = 0))) :=
  ⟨rfl, by decide, timerTick_expiry_cancels_and_triggers _ _ rfl (by decide)⟩

/-- The `startMetronome` only touches the metronome sub-state. -/
theorem startMetronome_timer (sp : Option Int) (rn rd : Nat) (dot : Bool)
    (st : AppState) : (startMetronome sp rn rd dot st).timer = st.timer := rfl

/-- The `startMetronome` preserves the stats. -/
theorem startMetronome_stats (sp : Option Int) (rn rd : Nat) (dot : Bool)
    (st : AppState) : (startMetronome sp rn rd dot st).stats = st.stats := rfl

/-- The `startMetronome` preserves the content state. -/
theorem startMetronome_content (sp : Option Int) (rn rd : Nat) (dot : Bool)
    (st : AppState) : (startMetronome sp rn rd dot st).content = st.content := rfl

/-- The `startMetronome` preserves the settings. -/
theorem startMetronome_settings (sp : Option Int) (rn rd : Nat) (dot : Bool)
    (st : AppState) : (startMetronome sp rn rd dot st).settings = st.settings := rfl

/-- The `pauseTimer` flips exactly the pause flag of the timer. -/
theorem pauseTimer_timer (mrn mrd : Nat) (dot : Bool) (st : AppState) :
    (pauseTimer mrn mrd dot st).timer
      = { st.timer with isPaused := !st.timer.isPaused } := by
  unfold pauseTimer
  dsimp only
  split
  · rfl
  · split
    · rw [startMetronome_timer]
    · rfl

/-- The `pauseTimer` preserves the stats. -/
theorem pauseTimer_stats (mrn mrd : Nat) (dot : Bool) (st : AppState) :
    (pauseTimer mrn mrd dot st).stats = st.stats := by
  unfold pauseTimer
  dsimp only
  split
  · rfl
  · split
    · rw [startMetronome_stats]
    · rfl

/-- The `pauseTimer` preserves the content state. -/
theorem pauseTimer_content (mrn mrd : Nat) (dot : Bool) (st : AppState) :
    (pauseTimer mrn mrd dot st).content = st.content := by
  unfold pauseTimer
  dsimp only
  split
  · rfl
  · split
    · rw [startMetronome_content]
    · rfl

/-- C8 (counterexample): `Stats.finishContent` calls `Timer.pauseTimer`,
which is a toggle — so finishing while the timer is already paused resumes
it instead of leaving it paused, refuting "for every prior timer state,
finishContent leaves the timer paused". -/
theorem finishContent_resumes_paused_timer :
    (let st : AppState := { initialAppState with
        timer := { initialAppState.timer with isPaused := true } }
     st.timer.isPaused = true ∧
     (finishContent 0 2 true st {} {} false).1.timer.isPaused = false) := by
  exact ⟨rfl, by decide⟩

/-- C8 (amended): `finishContent` toggles the timer's pause flag — leaving
the timer paused exactly when it was running before — increments exactly one
stats counter by one (punishments-completed when the current content's
`isPunishment` flag is set, otherwise favorites-completed), leaves the other
counter unchanged, and persists: the settings blob written to the local
cache carries the updated counters. -/
theorem finishContent_toggles_pause_increments_one_counter_persists
    (mrn mrd : Nat) (dot : Bool) (st : AppState) (ls : LocalStorage)
    (ss : SessionStorage) (remoteOk : Bool) :
    (finishContent mrn mrd dot st ls ss remoteOk).1.timer.isPaused
        = !st.timer.isPaused ∧
    (finishContent mrn mrd dot st ls ss remoteOk).1.stats.punishmentsCompletedCount
        = st.stats.punishmentsCompletedCount
          + (if st.content.isPunishment then 1 else 0) ∧
    (finishContent mrn mrd dot st ls ss remoteOk).1.stats.favoritesCompletedCount
        = st.stats.favoritesCompletedCount
          + (if st.content.isPunishment then 0 else 1) ∧
    (parseStored (finishContent mrn mrd dot st ls ss remoteOk).2.goonAppSettings).map
        (fun p => p.stats)
      = some (some {
          favoritesCompletedCount :=
            some ((finishContent mrn mrd dot st ls ss remoteOk).1.stats.favoritesCompletedCount),
          punishmentsCompletedCount :=
            some ((finishContent mrn mrd dot st ls ss remoteOk).1.stats.punishmentsCompletedCount) }) := by
  rcases hC : st.content.isPunishment with _ | _ <;>
    simp [finishContent, saveToStorage, buildSaveBlob, parseStored,
      pauseTimer_timer, pauseTimer_stats, pauseTimer_content, hC]

/-- The `startMetronomeM` restores the one-task accounting: from a
well-accounted metronome state it ends with exactly one live task when the
dot element exists, and zero when the early return fires. -/
theorem startMetronomeM_tasks (sp : Option Int) (rn rd : Nat) (dot : Bool)
    (m : MetronomeState) (h : m.intervalTasks = if m.interval then 1 else 0) :
    (startMetronomeM sp rn rd dot m).intervalTasks
        = (if dot then 1 else 0) ∧
    (startMetronomeM sp rn rd dot m).interval = dot := by
  unfold startMetronomeM clearMetronomeTask
  dsimp only
  rcases hI : m.interval with _ | _ <;> rcases dot with _ | _ <;>
    rw [hI] at h <;> simp [hI, h]

/-- The timer sub-state produced by `startTimer`: the old task (if any) is
cleared, then exactly one new countdown task is installed. -/
theorem startTimer_timer_tasks (sec : Option Int) (rn rd mrn mrd : Nat)
    (dot : Bool) (st : AppState) (ls : LocalStorage) :
    (startTimer sec rn rd mrn mrd dot st ls).timer.intervalTasks
        = (if st.timer.interval then st.timer.intervalTasks - 1
           else st.timer.intervalTasks) + 1 ∧
    (startTimer sec rn rd mrn mrd dot st ls).timer.interval = true := by
  unfold startTimer clearTimerTask startMetronome
  dsimp only
  split <;> split <;> simp

/-- The metronome sub-state produced by `startTimer`: untouched when sound
is off, else replaced by a `startMetronomeM` result. -/
theorem startTimer_metronome (sec : Option Int) (rn rd mrn mrd : Nat)
    (dot : Bool) (st : AppState) (ls : LocalStorage)
    (h : st.metronome.intervalTasks = if st.metronome.interval then 1 else 0) :
    (startTimer sec rn rd mrn mrd dot st ls).metronome.intervalTasks
        = (if soundOn ls then (if dot then 1 else 0)
           else st.metronome.intervalTasks) ∧
    (startTimer sec rn rd mrn mrd dot st ls).metronome.interval
        = (if soundOn ls then dot else st.metronome.interval) := by
  unfold startTimer startMetronome
  dsimp only
  rcases hS : soundOn ls with _ | _
  · simp [hS]
  · simpa [hS] using startMetronomeM_tasks _ mrn mrd dot st.metronome h

/-- The `startTimer` preserves the task-accounting invariant and yields exactly
one live countdown task. -/
theorem taskInv_startTimer (sec : Option Int) (rn rd mrn mrd : Nat)
    (dot : Bool) (st : AppState) (ls : LocalStorage) (h : TaskInv st) :
    TaskInv (startTimer sec rn rd mrn mrd dot st ls) ∧
    (startTimer sec rn rd mrn mrd dot st ls).timer.intervalTasks = 1 := by
  obtain ⟨h1, h2⟩ := h
  obtain ⟨e1, e2⟩ := startTimer_timer_tasks sec rn rd mrn mrd dot st ls
  obtain ⟨e3, e4⟩ := startTimer_metronome sec rn rd mrn mrd dot st ls h2
  have ht : (startTimer sec rn rd mrn mrd dot st ls).timer.intervalTasks = 1 := by
    rw [e1]
    rcases hI : st.timer.interval with _ | _ <;> rw [hI] at h1 <;> simp [h1]
  refine ⟨⟨?_, ?_⟩, ht⟩
  · rw [ht, e2]; rfl
  · rw [e3, e4]
    rcases soundOn ls with _ | _ <;> rcases dot with _ | _ <;> simp [h2]

/-- The `startMetronome` preserves the task-accounting invariant. -/
theorem taskInv_startMetronome (sp : Option Int) (rn rd : Nat) (dot : Bool)
    (st : AppState) (h : TaskInv st) :
    TaskInv (startMetronome sp rn rd dot st) ∧
    (startMetronome sp rn rd dot st).metronome.intervalTasks ≤ 1 := by
  obtain ⟨h1, h2⟩ := h
  obtain ⟨e1, e2⟩ := startMetronomeM_tasks sp rn rd dot st.metronome h2
  unfold startMetronome TaskInv
  refine ⟨⟨h1, ?_⟩, ?_⟩
  · dsimp only; rw [e1, e2]
  · dsimp only; rw [e1]; rcases dot with _ | _ <;> simp

/-- The `pauseTimer` preserves the task-accounting invariant. -/
theorem taskInv_pauseTimer (mrn mrd : Nat) (dot : Bool) (st : AppState)
    (h : TaskInv st) : TaskInv (pauseTimer mrn mrd dot st) := by
  obtain ⟨h1, h2⟩ := h
  unfold pauseTimer
  dsimp only
  split
  · exact ⟨h1, h2⟩
  · split
    · exact (taskInv_startMetronome _ mrn mrd dot _ ⟨h1, h2⟩).1
    · exact ⟨h1, h2⟩

/-- The `timerTick` preserves the task-accounting invariant. -/
theorem taskInv_timerTick (st : AppState) (ls : LocalStorage)
    (h : TaskInv st) : TaskInv (timerTick st ls).state := by
  obtain ⟨h1, h2⟩ := h
  unfold timerTick clearTimerTask TaskInv
  dsimp only
  split
  · exact ⟨h1, h2⟩
  · split
    · refine ⟨?_, h2⟩
      rcases hI : st.timer.interval with _ | _ <;> rw [hI] at h1 <;> simp [h1]
    · exact ⟨h1, h2⟩

/-- The `updateAutoCycleUI` preserves the task-accounting invariant. -/
theorem taskInv_updateAutoCycleUI (acb : Bool) (st : AppState)
    (h : TaskInv st) : TaskInv (updateAutoCycleUI acb st) := by
  obtain ⟨h1, h2⟩ := h
  unfold updateAutoCycleUI TaskInv
  dsimp only
  split
  · rename_i hc
    refine ⟨?_, h2⟩
    have hI : st.timer.interval = true := by
      rcases hI : st.timer.interval with _ | _
      · rw [hI] at hc; simp at hc
      · rfl
    rw [hI] at h1; simp [h1]
  · exact ⟨h1, h2⟩

/-- The `resetTimer` preserves the task-accounting invariant and yields exactly
one live countdown task. -/
theorem taskInv_resetTimer (useNewTime : Bool) (rn rd srn srd mrn mrd : Nat)
    (dot : Bool) (st : AppState) (ls : LocalStorage) (h : TaskInv st) :
    TaskInv (resetTimer useNewTime rn rd srn srd mrn mrd dot st ls) ∧
    (resetTimer useNewTime rn rd srn srd mrn mrd dot st ls).timer.intervalTasks
      = 1 := by
  obtain ⟨h1, h2⟩ := h
  unfold resetTimer clearTimerTask
  dsimp only
  split
  · rename_i hI
    exact taskInv_startTimer _ srn srd mrn mrd dot _ ls
      ⟨by rw [hI] at h1; simp [h1], h2⟩
  · exact taskInv_startTimer _ srn srd mrn mrd dot _ ls ⟨h1, h2⟩

/-- C5: from any state satisfying the task-accounting invariant, every timer
and metronome operation preserves it — so at most one countdown task and at
most one metronome task are ever live — and in particular `startTimer`
always ends with exactly one countdown task (the pre-existing one having
been cancelled first) and `startMetronome` with at most one metronome task:
repeated starts never stack tick intervals. -/
theorem single_timer_and_metronome_task
    (sec sp : Option Int) (rn rd srn srd mrn mrd : Nat)
    (dot acb useNewTime : Bool) (st : AppState) (ls : LocalStorage)
    (h : TaskInv st) :
    (TaskInv (startTimer sec rn rd mrn mrd dot st ls) ∧
      (startTimer sec rn rd mrn mrd dot st ls).timer.intervalTasks = 1) ∧
    (TaskInv (startMetronome sp mrn mrd dot st) ∧
      (startMetronome sp mrn mrd dot st).metronome.intervalTasks ≤ 1) ∧
    TaskInv (timerTick st ls).state ∧
    TaskInv (pauseTimer mrn mrd dot st) ∧
    TaskInv (resetTimer useNewTime rn rd srn srd mrn mrd dot st ls) ∧
    TaskInv (updateAutoCycleUI acb st) :=
  ⟨taskInv_startTimer sec rn rd mrn mrd dot st ls h,
   taskInv_startMetronome sp mrn mrd dot st h,
   taskInv_timerTick st ls h,
   taskInv_pauseTimer mrn mrd dot st h,
   (taskInv_resetTimer useNewTime rn rd srn srd mrn mrd dot st ls h).1,
   taskInv_updateAutoCycleUI acb st h⟩

/-- C5 witness: the initial state satisfies the invariant, and starting the
timer on it yields exactly one countdown task. -/
theorem single_timer_and_metronome_task_witness :
    TaskInv initialAppState ∧
    (TaskInv (startTimer (some 5) 0 2 0 2 true initialAppState {}) ∧
      (startTimer (some 5) 0 2 0 2 true initialAppState {}).timer.intervalTasks
        = 1) :=
  ⟨by decide,
   (single_timer_and_metronome_task (some 5) (some 60) 0 2 0 2 0 2 true true true
      initialAppState {} (by decide)).1⟩

/-- C2: with the remote store unavailable for both the save and every
subsequent fetch (`remoteOk = false`, `remoteLoad = none`), a
`saveToStorage` followed by a `loadFromStorage` restores into `AppState`
exactly the just-saved values of the persisted fields: favorites,
punishments, timer min/max (as saved, i.e. with the `|| 30` / `|| 120`
fallback applied to an empty string), theme, the punishments and auto-cycle
flags, both enabled folder sets (in `settings` and in `folders`), both stats
counters, and the credentials object.  On all fields that the save blob
copies verbatim this round trip is the identity. -/
theorem save_then_load_restores_persisted_fields
    (st : AppState) (ls : LocalStorage) (ss ss2 : SessionStorage)
    (url : Option String) (acb : Bool) :
    (let saved := saveToStorage st ls ss false
     let loaded := loadFromStorage saved.1 saved.2.1 ss2 url none acb
     loaded.1.subreddits.favorites = st.subreddits.favorites ∧
     loaded.1.subreddits.punishments = st.subreddits.punishments ∧
     loaded.1.settings.timerMin = jsOrStr st.settings.timerMin "30" ∧
     loaded.1.settings.timerMax = jsOrStr st.settings.timerMax "120" ∧
     loaded.1.settings.theme = st.settings.theme ∧
     loaded.1.settings.punishmentsEnabled = st.settings.punishmentsEnabled ∧
     loaded.1.settings.autoCycleEnabled = st.settings.autoCycleEnabled ∧
     loaded.1.settings.enabledContentFolders = st.folders.enabledContentFolders ∧
     loaded.1.settings.enabledPunishmentFolders
       = st.folders.enabledPunishmentFolders ∧
     loaded.1.folders.enabledContentFolders = st.folders.enabledContentFolders ∧
     loaded.1.folders.enabledPunishmentFolders
       = st.folders.enabledPunishmentFolders ∧
     loaded.1.stats.favoritesCompletedCount = st.stats.favoritesCompletedCount ∧
     loaded.1.stats.punishmentsCompletedCount
       = st.stats.punishmentsCompletedCount ∧
     loaded.1.settings.redditCredentials = st.settings.redditCredentials) := by
  refine ⟨rfl, rfl, rfl, rfl, ?_, rfl, rfl, rfl, rfl, rfl, rfl, rfl, rfl, rfl⟩
  show mergeTruthy (mergeTruthy st.settings.theme (some st.settings.theme))
      (some st.settings.theme) = st.settings.theme
  rw [mergeTruthy_self, mergeTruthy_self]

/-- C6 (counterexample): a load whose payload has every field absent still
overwrites `AppState.settings.contentSource` — with no URL parameter and no
session value the 4-tier resolution falls back to `reddit` and replaces the
existing value `custom`, so "fields absent from the loaded settings payload
leave the corresponding AppState values unchanged" fails for
`contentSource`. -/
theorem load_overwrites_contentSource_absent_from_payload :
    (let st : AppState := { initialAppState with
        settings := { initialAppState.settings with contentSource := some "custom" } }
     Payload.empty.contentSource = none ∧
     (loadFromStorage st {} {} none (some Payload.empty) false).1.settings.contentSource
       = some "reddit" ∧
     some "reddit" ≠ st.settings.contentSource) := by
  refine ⟨rfl, by decide, by decide⟩

set_option maxHeartbeats 2000000 in
/-- C6 (amended): for every load, a field absent from the loaded settings
payload leaves the corresponding `AppState` value unchanged — for every
merged field except `contentSource`: that one is governed by the 4-tier
resolution (URL parameter, then session cache, then payload, then the
`reddit` default) and is rewritten on every load even when absent from the
payload.  The stats counters are preserved when both the `stats` object and
the direct top-level counters are absent. -/
theorem load_absent_fields_leave_state_unchanged_except_contentSource
    (st : AppState) (ls : LocalStorage) (ss : SessionStorage)
    (url : Option String) (remoteLoad : Option Payload) (acb : Bool) :
    (let p := match remoteLoad with
              | some q => q
              | none => (parseStored ls.goonAppSettings).getD Payload.empty
     let fin := (loadFromStorage st ls ss url remoteLoad acb).1
     (p.favorites = none → fin.subreddits.favorites = st.subreddits.favorites) ∧
     (p.punishments = none → fin.subreddits.punishments = st.subreddits.punishments) ∧
     (p.punishmentsEnabled = none →
       fin.settings.punishmentsEnabled = st.settings.punishmentsEnabled) ∧
     (p.autoCycleEnabled = none →
       fin.settings.autoCycleEnabled = st.settings.autoCycleEnabled) ∧
     (p.autoCycleInterval = none →
       fin.settings.autoCycleInterval = st.settings.autoCycleInterval) ∧
     (p.videoTimerSoftLimitEnabled = none →
       fin.settings.videoTimerSoftLimitEnabled
         = st.settings.videoTimerSoftLimitEnabled) ∧
     (p.theme = none → fin.settings.theme = st.settings.theme) ∧
     (p.timerMin = none → fin.settings.timerMin = st.settings.timerMin) ∧
     (p.timerMax = none → fin.settings.timerMax = st.settings.timerMax) ∧
     (p.metronomeSpeed = none →
       fin.settings.metronomeSpeed = st.settings.metronomeSpeed) ∧
     (p.soundEnabled = none → fin.settings.soundEnabled = st.settings.soundEnabled) ∧
     (p.metronomeSound = none →
       fin.settings.metronomeSound = st.settings.metronomeSound) ∧
     (p.metronomeVolume = none →
       fin.settings.metronomeVolume = st.settings.metronomeVolume) ∧
     (p.enabledContentFolders = none →
       fin.settings.enabledContentFolders = st.settings.enabledContentFolders ∧
       fin.folders.enabledContentFolders = st.folders.enabledContentFolders) ∧
     (p.enabledPunishmentFolders = none →
       fin.settings.enabledPunishmentFolders = st.settings.enabledPunishmentFolders ∧
       fin.folders.enabledPunishmentFolders = st.folders.enabledPunishmentFolders) ∧
     (p.redditCredentials = none →
       fin.settings.redditCredentials = st.settings.redditCredentials) ∧
     (p.stats = none → p.favoritesCompletedCount = none →
       p.punishmentsCompletedCount = none → fin.stats = st.stats)) := by
  dsimp only
  rcases remoteLoad with _ | p0
  · rcases hpl : parseStored ls.goonAppSettings with _ | pl <;>
      · simp only [loadFromStorage, applyLoadedSettings, applyCatchSettings,
          updateTimerSettingsUI, updateAutoCycleUI, hpl,
          Option.getD_none, Option.getD_some]
        refine ⟨?_, ?_, ?_, ?_, ?_, ?_, ?_, ?_, ?_, ?_, ?_, ?_, ?_, ?_, ?_, ?_, ?_⟩ <;>
          intros <;>
          simp_all [Payload.empty, mergeTruthy, mergeTruthyOpt, mergeTruthyNat]
  · simp only [loadFromStorage, applyLoadedSettings, applyCatchSettings,
      updateTimerSettingsUI, updateAutoCycleUI, parseStored,
      Option.getD_none, Option.getD_some]
    refine ⟨?_, ?_, ?_, ?_, ?_, ?_, ?_, ?_, ?_, ?_, ?_, ?_, ?_, ?_, ?_, ?_, ?_⟩ <;>
      intros <;>
      simp_all [mergeTruthy, mergeTruthyOpt, mergeTruthyNat]

/-- C6 witness: loading the empty payload over the initial state preserves a
representative absent field (favorites) and the stats. -/
theorem load_absent_fields_witness :
    Payload.empty.favorites = none ∧
    (loadFromStorage initialAppState {} {} none (some Payload.empty) false).1.subreddits.favorites
      = initialAppState.subreddits.favorites ∧
    (loadFromStorage initialAppState {} {} none (some Payload.empty) false).1.stats
      = initialAppState.stats := by
  have h := load_absent_fields_leave_state_unchanged_except_contentSource
    initialAppState {} {} none (some Payload.empty) false
  exact ⟨rfl, h.1 rfl, h.2.2.2.2.2.2.2.2.2.2.2.2.2.2.2.2 rfl rfl rfl⟩

end Goon
